import Mathlib

/-
Shallow embedding of src/Player.ts (a three.js + rapier3d character
controller) and of the three.js math routines it calls
(Vector3.setLength / normalize / multiplyScalar / applyQuaternion / lerp /
distanceTo, Quaternion.setFromEuler / normalize / slerp / rotateTowards).

Numbers are modelled as real numbers; timestamps for the real-time
setTimeout cooldown machinery are rationals (milliseconds).
-/

set_option maxHeartbeats 1000000

noncomputable section

open Classical

/-- Vec3 mirrors three.js Vector3: three real components. -/
structure Vec3 where
  x : ℝ
  y : ℝ
  z : ℝ

/-- Quat mirrors three.js Quaternion: four real components. -/
structure Quat where
  x : ℝ
  y : ℝ
  z : ℝ
  w : ℝ

namespace Vec3

/-- Vector3.lengthSq: x*x + y*y + z*z. -/
def lengthSq (v : Vec3) : ℝ := v.x * v.x + v.y * v.y + v.z * v.z

/-- Vector3.length: sqrt of lengthSq. -/
def length (v : Vec3) : ℝ := Real.sqrt v.lengthSq

/-- Vector3.multiplyScalar. -/
def multiplyScalar (v : Vec3) (s : ℝ) : Vec3 := ⟨v.x * s, v.y * s, v.z * s⟩

/-- Vector3.add (componentwise). -/
def add (v u : Vec3) : Vec3 := ⟨v.x + u.x, v.y + u.y, v.z + u.z⟩

/-- Vector3.normalize: divideScalar (length or 1 when the length is 0), as in
the JS idiom divideScalar(this.length() or 1). -/
def normalize (v : Vec3) : Vec3 :=
  v.multiplyScalar (1 / (if v.length = 0 then 1 else v.length))

/-- Vector3.setLength: normalize then multiplyScalar. -/
def setLength (v : Vec3) (l : ℝ) : Vec3 := (v.normalize).multiplyScalar l

/-- Vector3.applyQuaternion, as in three.js (t = 2 cross(q, v); v + w t + cross(q, t)). -/
def applyQuaternion (v : Vec3) (q : Quat) : Vec3 :=
  let tx := 2 * (q.y * v.z - q.z * v.y)
  let ty := 2 * (q.z * v.x - q.x * v.z)
  let tz := 2 * (q.x * v.y - q.y * v.x)
  ⟨v.x + q.w * tx + q.y * tz - q.z * ty,
   v.y + q.w * ty + q.z * tx - q.x * tz,
   v.z + q.w * tz + q.x * ty - q.y * tx⟩

/-- Vector3.lerp toward a target with factor alpha. -/
def lerp (v target : Vec3) (alpha : ℝ) : Vec3 :=
  ⟨v.x + (target.x - v.x) * alpha,
   v.y + (target.y - v.y) * alpha,
   v.z + (target.z - v.z) * alpha⟩

/-- Vector3.distanceTo. -/
def distanceTo (v u : Vec3) : ℝ :=
  Real.sqrt ((v.x - u.x) * (v.x - u.x) + (v.y - u.y) * (v.y - u.y) + (v.z - u.z) * (v.z - u.z))

end Vec3

/-- JavaScript Number.EPSILON = 2^(-52), used by Quaternion.slerp. -/
def jsEpsilon : ℝ := 1 / 2 ^ (52 : ℕ)

/-- JavaScript Math.atan2. -/
def jsAtan2 (y x : ℝ) : ℝ :=
  if 0 < x then Real.arctan (y / x)
  else if x < 0 then
    (if 0 ≤ y then Real.arctan (y / x) + Real.pi else Real.arctan (y / x) - Real.pi)
  else
    (if 0 < y then Real.pi / 2 else if y < 0 then -(Real.pi / 2) else 0)

namespace Quat

/-- Quaternion.dot. -/
def dot (a b : Quat) : ℝ := a.x * b.x + a.y * b.y + a.z * b.z + a.w * b.w

/-- Quaternion.length. -/
def length (q : Quat) : ℝ := Real.sqrt (q.x * q.x + q.y * q.y + q.z * q.z + q.w * q.w)

/-- Quaternion.normalize: identity quaternion when the length is 0, otherwise
scale every component by the inverse length. -/
def normalizeQ (q : Quat) : Quat :=
  let l := q.length
  if l = 0 then ⟨0, 0, 0, 1⟩
  else ⟨q.x * (1 / l), q.y * (1 / l), q.z * (1 / l), q.w * (1 / l)⟩

/-- Componentwise negation (slerp negates the target when the dot product is negative). -/
def negQ (q : Quat) : Quat := ⟨-q.x, -q.y, -q.z, -q.w⟩

/-- Quaternion.slerp of three.js, all branches: early outs at t = 0 and t = 1,
antipodal correction, the near-parallel clamp, the near-degenerate linear
blend with renormalization, and the generic sin-ratio blend. -/
def slerp (qa qb : Quat) (t : ℝ) : Quat :=
  if t = 0 then qa
  else if t = 1 then qb
  else
    let cosHalfTheta := qa.w * qb.w + qa.x * qb.x + qa.y * qb.y + qa.z * qb.z
    let q1 := if cosHalfTheta < 0 then negQ qb else qb
    let cosHalfTheta1 := if cosHalfTheta < 0 then -cosHalfTheta else cosHalfTheta
    if 1 ≤ cosHalfTheta1 then qa
    else
      let sqrSinHalfTheta := 1 - cosHalfTheta1 * cosHalfTheta1
      if sqrSinHalfTheta ≤ jsEpsilon then
        normalizeQ ⟨(1 - t) * qa.x + t * q1.x, (1 - t) * qa.y + t * q1.y,
                    (1 - t) * qa.z + t * q1.z, (1 - t) * qa.w + t * q1.w⟩
      else
        let sinHalfTheta := Real.sqrt sqrSinHalfTheta
        let halfTheta := jsAtan2 sinHalfTheta cosHalfTheta1
        let ratioA := Real.sin ((1 - t) * halfTheta) / sinHalfTheta
        let ratioB := Real.sin (t * halfTheta) / sinHalfTheta
        ⟨qa.x * ratioA + q1.x * ratioB, qa.y * ratioA + q1.y * ratioB,
         qa.z * ratioA + q1.z * ratioB, qa.w * ratioA + q1.w * ratioB⟩

/-- Quaternion.angleTo: 2 acos of abs of the clamped dot product. -/
def angleTo (a b : Quat) : ℝ := 2 * Real.arccos |max (-1) (min 1 (dot a b))|

/-- Quaternion.rotateTowards: no-op at angle 0, otherwise slerp by
min 1 (step / angle). -/
def rotateTowards (qa qb : Quat) (step : ℝ) : Quat :=
  let angle := angleTo qa qb
  if angle = 0 then qa
  else slerp qa qb (min 1 (step / angle))

/-- Quaternion.equals: componentwise equality. -/
def equalsQ (a b : Quat) : Prop := a.x = b.x ∧ a.y = b.y ∧ a.z = b.z ∧ a.w = b.w

/-- Quaternion.setFromEuler with the default XYZ order, specialised to the
three Euler angles. -/
def setFromEulerXYZ (ex ey ez : ℝ) : Quat :=
  let c1 := Real.cos (ex / 2)
  let c2 := Real.cos (ey / 2)
  let c3 := Real.cos (ez / 2)
  let s1 := Real.sin (ex / 2)
  let s2 := Real.sin (ey / 2)
  let s3 := Real.sin (ez / 2)
  ⟨s1 * c2 * c3 + c1 * s2 * s3,
   c1 * s2 * c3 - s1 * c2 * s3,
   c1 * c2 * s3 + s1 * s2 * c3,
   c1 * c2 * c3 - s1 * s2 * s3⟩

end Quat

namespace Player

/-- Keyboard snapshot: the keyMap entries Player.update reads
(KeyW, KeyS, KeyA, KeyD, Space). -/
structure Keys where
  keyW : Bool
  keyS : Bool
  keyA : Bool
  keyD : Bool
  space : Bool

/-- Avatar transform owned by the animation collaborator
(animationController.model): position and quaternion. -/
structure Avatar where
  position : Vec3
  quaternion : Quat

/-- State of the Player instance and of the entities it owns or mutates:
the grounded and wait flags, accelerationFactor, the rapier body
(translation, linear velocity, linear damping), the attached capsule
collider (half height, local translation, mass), the followTarget proxy,
the followCam pivot position, the optional avatar, the cumulative count of
ui.reset() notifications, and the impulse most recently passed to
body.applyImpulse. -/
structure PState where
  grounded : Bool
  wait : Bool
  accelerationFactor : ℝ
  bodyTranslation : Vec3
  bodyLinvel : Vec3
  linearDamping : ℝ
  capsuleHeight : ℝ
  capsuleTranslation : Vec3
  capsuleMass : ℝ
  followTargetPos : Vec3
  pivotPos : Vec3
  avatar : Option Avatar
  uiResetCount : ℕ
  lastImpulse : Vec3

/-- Field initializer originalCapsuleHeight = 0.5. -/
def originalCapsuleHeight : ℝ := 0.5

/-- Field initializer jumpCapsuleHeight = 0.25. -/
def jumpCapsuleHeight : ℝ := 0.25

/-- Field initializer originalCapsuleTranslation = (0, 0.645, 0). -/
def originalCapsuleTranslation : Vec3 := ⟨0, 0.645, 0⟩

/-- Field initializer jumpCapsuleTranslation = (0, 0.8, 0). -/
def jumpCapsuleTranslation : Vec3 := ⟨0, 0.8, 0⟩

/-- State immediately after the Player constructor: field initializers
(grounded = false, wait = false, accelerationFactor = 1), a dynamic body at
the spawn position with zero velocity and rapier's default zero linear
damping, the spawn capsule collider (height 0.5, translation (0, 0.645, 0),
mass 1), followTarget at the Object3D default origin, and no avatar yet
(init() has not resolved). The followCam pivot position is internal to the
FollowCam collaborator, so it stays a parameter. -/
def construct (position : Vec3) (pivot0 : Vec3) : PState :=
  { grounded := false
    wait := false
    accelerationFactor := 1
    bodyTranslation := position
    bodyLinvel := ⟨0, 0, 0⟩
    linearDamping := 0
    capsuleHeight := originalCapsuleHeight
    capsuleTranslation := originalCapsuleTranslation
    capsuleMass := 1
    followTargetPos := ⟨0, 0, 0⟩
    pivotPos := pivot0
    avatar := none
    uiResetCount := 0
    lastImpulse := ⟨0, 0, 0⟩ }

/-- Player.updateCapsuleHeight: replace the collider with a capsule of the
given height and translation, mass 0.5, friction 0, collision events on. -/
def updateCapsuleHeight (height : ℝ) (translation : Vec3) (s : PState) : PState :=
  { s with capsuleHeight := height, capsuleTranslation := translation, capsuleMass := 0.5 }

/-- Player.reset: zero the linear velocity, move the body to (0, 1, 0),
notify the UI collaborator. -/
def reset (s : PState) : PState :=
  { s with bodyLinvel := ⟨0, 0, 0⟩
           bodyTranslation := ⟨0, 1, 0⟩
           uiResetCount := s.uiResetCount + 1 }

/-- Lines 92 to 107 of update, vector part: inputVelocity starts at
(0, 0, 0); KeyW sets z to -1, KeyS sets z to 1, KeyA sets x to -1, KeyD sets
x to 1, in that order, each overwriting the previous value on its axis. -/
def moveInput (k : Keys) : Vec3 :=
  let v : Vec3 := ⟨0, 0, 0⟩
  let v := if k.keyW then { v with z := -1 } else v
  let v := if k.keyS then { v with z := 1 } else v
  let v := if k.keyA then { v with x := -1 } else v
  let v := if k.keyD then { v with x := 1 } else v
  v

/-- Lines 92 to 107 of update, limit part: limit starts at 1 and each held
directional key sets it to 9.5. -/
def moveLimit (k : Keys) : ℝ :=
  let l : ℝ := 1
  let l := if k.keyW then 9.5 else l
  let l := if k.keyS then 9.5 else l
  let l := if k.keyA then 9.5 else l
  let l := if k.keyD then 9.5 else l
  l

/-- Lines 109 to 116 of update: when the direction vector has positive
length, add delta * 0.1 to accelerationFactor and clamp values above 2 down
to 2; otherwise reset it to 1. -/
def nextAccel (delta : ℝ) (v : Vec3) (accel : ℝ) : ℝ :=
  if v.length > 0 then
    let a := accel + delta * 0.1
    if a > 2 then 2 else a
  else 1

/-- Lines 129 to 134 of update: copy the followCam yaw into this.euler.y
(x and z stay 0), build the quaternion from that Euler, rotate the impulse
vector by it, and apply it to the body (rapier adds impulse times inverse
mass to the linear velocity). The applied vector is recorded in
lastImpulse. -/
def applyImpulseStep (camYaw : ℝ) (v : Vec3) (s : PState) : PState :=
  let q := Quat.setFromEulerXYZ 0 camYaw 0
  let impulse := v.applyQuaternion q
  { s with bodyLinvel := s.bodyLinvel.add (impulse.multiplyScalar (1 / s.capsuleMass))
           lastImpulse := impulse }

/-- Lines 88 to 134 of update: zero inputVelocity; while grounded read the
directional keys, update accelerationFactor, scale the vector to
delta * limit * accelerationFactor, and, when wait is clear and Space is
held, set wait, set the vertical component to the jump speed 5 and swap the
collider to the crouch-jump profile; finally rotate by the camera yaw and
apply the impulse. While airborne the vector stays (0, 0, 0). -/
def applyInput (delta : ℝ) (k : Keys) (camYaw : ℝ) (s : PState) : PState :=
  if s.grounded then
    let dir := moveInput k
    let accel := nextAccel delta dir s.accelerationFactor
    let v := dir.setLength (delta * moveLimit k * accel)
    let jump := (!s.wait) && k.space
    let v := if jump then { v with y := 5 } else v
    let s1 := { s with accelerationFactor := accel
                       wait := if jump then true else s.wait }
    let s1 := if jump then updateCapsuleHeight jumpCapsuleHeight jumpCapsuleTranslation s1 else s1
    applyImpulseStep camYaw v s1
  else
    applyImpulseStep camYaw ⟨0, 0, 0⟩ s

/-- Lines 137 to 139 of update: when the body sits below y = -3, call
reset(). -/
def oobStep (s : PState) : PState :=
  if s.bodyTranslation.y < -3 then reset s else s

/-- Lines 142 to 147 of update: copy the body translation into followTarget,
take its world position (followTarget is a direct child of the scene root,
so world position equals local position), lerp the followCam pivot toward it
at delta * 10 and the avatar position toward it at delta * 20. -/
def followStep (delta : ℝ) (s : PState) : PState :=
  let s := { s with followTargetPos := s.bodyTranslation }
  let vector := s.followTargetPos
  let s := { s with pivotPos := s.pivotPos.lerp vector (delta * 10) }
  { s with avatar := s.avatar.map fun av => { av with position := av.position.lerp vector (delta * 20) } }

/-- Lines 151 to 163 of update: the targetQuaternion produced by
Matrix4.lookAt followed by setFromRotationMatrix is taken as the oracle
input rawTarget (the claims under verification do not depend on its value,
only on what update does with it). When the avatar is present, the avatar
to followTarget distance exceeds 0.0001 and the avatar quaternion differs
from the raw target, zero the target's z and x components, normalize it,
and rotate the avatar quaternion towards it by delta * 20. With no avatar
the optional chaining and the distance comparison make the branch a no-op. -/
def orientStep (delta : ℝ) (rawTarget : Quat) (s : PState) : PState :=
  match s.avatar with
  | none => s
  | some av =>
    let targetQuaternion := rawTarget
    let distance := av.position.distanceTo s.followTargetPos
    if distance > 0.0001 ∧ ¬ Quat.equalsQ av.quaternion targetQuaternion then
      let corrected := Quat.normalizeQ { targetQuaternion with z := 0, x := 0 }
      { s with avatar := some { av with quaternion := Quat.rotateTowards av.quaternion corrected (delta * 20) } }
    else s

/-- Player.update(delta): the four blocks in source order. The trailing
animationController.update(delta) advances animation actions only and
mutates none of the modelled state. -/
def update (delta : ℝ) (k : Keys) (camYaw : ℝ) (rawTarget : Quat) (s : PState) : PState :=
  orientStep delta rawTarget (followStep delta (oobStep (applyInput delta k camYaw s)))

end Player

namespace Sys

open Player

/-- Whole-system state: the Player state plus the set of pending
setTimeout callbacks scheduled by setGrounded. Each pending callback is
represented by its expiry time in milliseconds; when it fires it sets
wait to false. -/
structure SState where
  p : PState
  timers : List ℚ

/-- External stimuli of the Player, each processed at an absolute real time
in milliseconds: a frame (update with a delta, the keyboard snapshot, the
followCam yaw and the lookAt oracle described at orientStep), a collision
driven setGrounded call, and the resolution of init() which installs the
avatar model at its three.js Object3D defaults (identity quaternion). -/
inductive Event where
  | upd (delta : ℝ) (k : Keys) (camYaw : ℝ) (rawTarget : Quat)
  | ground (g : Bool)
  | initDone (pos : Vec3)

/-- Fire every pending setTimeout callback whose expiry time has been
reached: each one sets wait to false and leaves the queue. -/
def fireDue (t : ℚ) (s : SState) : SState :=
  { p := { s.p with wait := if s.timers.any (fun e => decide (e ≤ t)) then false else s.p.wait }
    timers := s.timers.filter (fun e => decide (t < e)) }

/-- Player.setGrounded, called at time t: a no-op when the value is
unchanged; otherwise store it and, on becoming grounded, raise the linear
damping to 4, schedule wait to be cleared 250 ms later, and restore the
standing capsule profile; on becoming airborne lower the damping to 0.1. -/
def setGrounded (t : ℚ) (g : Bool) (s : SState) : SState :=
  if g = s.p.grounded then s
  else if g then
    { p := updateCapsuleHeight originalCapsuleHeight originalCapsuleTranslation
             { s.p with grounded := g, linearDamping := 4 }
      timers := s.timers ++ [t + 250] }
  else
    { s with p := { s.p with grounded := g, linearDamping := 0.1 } }

/-- Process one timestamped event: timers due at that time fire first
(the JavaScript event loop runs due timeout callbacks before later
frames or collision callbacks), then the event itself runs. -/
def stepEvent (t : ℚ) (ev : Event) (s : SState) : SState :=
  let s := fireDue t s
  match ev with
  | .upd delta k camYaw rawTarget => { s with p := Player.update delta k camYaw rawTarget s.p }
  | .ground g => setGrounded t g s
  | .initDone pos => { s with p := { s.p with avatar := some ⟨pos, ⟨0, 0, 0, 1⟩⟩ } }

/-- Run a timestamped event list from a state. -/
def runEvents (evs : List (ℚ × Event)) (s : SState) : SState :=
  evs.foldl (fun s pe => stepEvent pe.1 pe.2 s) s

/-- System state right after the Player constructor: no pending timers. -/
def init0 (position : Vec3) (pivot0 : Vec3) : SState :=
  ⟨Player.construct position pivot0, []⟩

/-- Physical frames have a positive delta; other events are unconstrained. -/
def goodEvent : ℚ × Event → Prop
  | (_, .upd delta _ _ _) => 0 < delta
  | (_, .ground _) => True
  | (_, .initDone _) => True

/-- States reachable from a freshly constructed Player by events whose
frame deltas are positive. -/
inductive Reachable : SState → Prop
  | init (position pivot0 : Vec3) : Reachable (init0 position pivot0)
  | step {s : SState} (t : ℚ) (ev : Event) (hev : goodEvent (t, ev)) (hs : Reachable s) :
      Reachable (stepEvent t ev s)

end Sys

/-! Basic lemmas about the embedded three.js vector and quaternion
routines. -/

lemma Vec3.applyQuaternion_zero (q : Quat) :
    (⟨0, 0, 0⟩ : Vec3).applyQuaternion q = ⟨0, 0, 0⟩ := by
  simp [Vec3.applyQuaternion]

lemma Vec3.setLength_zero (l : ℝ) : (⟨0, 0, 0⟩ : Vec3).setLength l = ⟨0, 0, 0⟩ := by
  simp [Vec3.setLength, Vec3.normalize, Vec3.multiplyScalar]

lemma Vec3.setLength_y (v : Vec3) (l : ℝ) (hy : v.y = 0) : (v.setLength l).y = 0 := by
  simp [Vec3.setLength, Vec3.normalize, Vec3.multiplyScalar, hy]

lemma Quat.setFromEulerXYZ_yaw_x (cy : ℝ) : (Quat.setFromEulerXYZ 0 cy 0).x = 0 := by
  simp [Quat.setFromEulerXYZ]

lemma Quat.setFromEulerXYZ_yaw_z (cy : ℝ) : (Quat.setFromEulerXYZ 0 cy 0).z = 0 := by
  simp [Quat.setFromEulerXYZ]

lemma Vec3.applyQuaternion_y (v : Vec3) (q : Quat) (hx : q.x = 0) (hz : q.z = 0) :
    (v.applyQuaternion q).y = v.y := by
  simp [Vec3.applyQuaternion, hx, hz]

lemma Quat.normalizeQ_xz (q : Quat) (hx : q.x = 0) (hz : q.z = 0) :
    (Quat.normalizeQ q).x = 0 ∧ (Quat.normalizeQ q).z = 0 := by
  unfold Quat.normalizeQ
  dsimp only
  split_ifs <;> simp [hx, hz]

lemma Quat.slerp_xz (qa qb : Quat) (t : ℝ) (hax : qa.x = 0) (haz : qa.z = 0)
    (hbx : qb.x = 0) (hbz : qb.z = 0) :
    (Quat.slerp qa qb t).x = 0 ∧ (Quat.slerp qa qb t).z = 0 := by
  unfold Quat.slerp
  dsimp only
  split_ifs <;>
    first
      | exact ⟨hax, haz⟩
      | exact ⟨hbx, hbz⟩
      | (refine Quat.normalizeQ_xz _ ?_ ?_ <;> simp [Quat.negQ, hax, haz, hbx, hbz])
      | (constructor <;> simp [Quat.negQ, hax, haz, hbx, hbz])

lemma Quat.rotateTowards_xz (qa qb : Quat) (step : ℝ) (hax : qa.x = 0) (haz : qa.z = 0)
    (hbx : qb.x = 0) (hbz : qb.z = 0) :
    (Quat.rotateTowards qa qb step).x = 0 ∧ (Quat.rotateTowards qa qb step).z = 0 := by
  unfold Quat.rotateTowards
  dsimp only
  split_ifs
  · exact ⟨hax, haz⟩
  · exact Quat.slerp_xz qa qb _ hax haz hbx hbz

namespace Player

/-- Abbreviation for the guard of the jump branch at line 120 together with
its enclosing grounded guard: grounded, cooldown flag clear, Space held. -/
def jumpGuard (k : Keys) (s : PState) : Bool := s.grounded && (!s.wait) && k.space

/-- Abbreviation: some directional key among WSAD is held. -/
def anyDir (k : Keys) : Bool := k.keyW || k.keyS || k.keyA || k.keyD

lemma moveInput_y (k : Keys) : (moveInput k).y = 0 := by
  rcases k with ⟨w, s, a, d, sp⟩
  cases w <;> cases s <;> cases a <;> cases d <;> rfl

lemma moveInput_length_pos (k : Keys) : (moveInput k).length > 0 ↔ anyDir k = true := by
  rcases k with ⟨w, s, a, d, sp⟩
  cases w <;> cases s <;> cases a <;> cases d <;>
    simp [moveInput, anyDir, Vec3.length, Vec3.lengthSq, Real.sqrt_pos]

lemma moveInput_zero (k : Keys) (hw : k.keyW = false) (hs : k.keyS = false)
    (ha : k.keyA = false) (hd : k.keyD = false) : moveInput k = ⟨0, 0, 0⟩ := by
  simp [moveInput, hw, hs, ha, hd]

lemma nextAccel_eq (delta : ℝ) (k : Keys) (a : ℝ) :
    nextAccel delta (moveInput k) a =
      if anyDir k = true then (if a + delta * 0.1 > 2 then 2 else a + delta * 0.1) else 1 := by
  rw [nextAccel]
  by_cases h : anyDir k = true
  · rw [if_pos ((moveInput_length_pos k).2 h), if_pos h]
  · rw [if_neg (fun hp => h ((moveInput_length_pos k).1 hp)), if_neg h]

/-! Projection lemmas for the stages of Player.update. -/

lemma applyImpulseStep_proj (camYaw : ℝ) (v : Vec3) (s : PState) :
    (applyImpulseStep camYaw v s).grounded = s.grounded ∧
    (applyImpulseStep camYaw v s).wait = s.wait ∧
    (applyImpulseStep camYaw v s).accelerationFactor = s.accelerationFactor ∧
    (applyImpulseStep camYaw v s).bodyTranslation = s.bodyTranslation ∧
    (applyImpulseStep camYaw v s).capsuleHeight = s.capsuleHeight ∧
    (applyImpulseStep camYaw v s).capsuleTranslation = s.capsuleTranslation ∧
    (applyImpulseStep camYaw v s).capsuleMass = s.capsuleMass ∧
    (applyImpulseStep camYaw v s).followTargetPos = s.followTargetPos ∧
    (applyImpulseStep camYaw v s).pivotPos = s.pivotPos ∧
    (applyImpulseStep camYaw v s).avatar = s.avatar ∧
    (applyImpulseStep camYaw v s).uiResetCount = s.uiResetCount := by
  repeat' constructor

lemma applyImpulseStep_lastImpulse (camYaw : ℝ) (v : Vec3) (s : PState) :
    (applyImpulseStep camYaw v s).lastImpulse =
      v.applyQuaternion (Quat.setFromEulerXYZ 0 camYaw 0) := rfl

lemma Vec3.applyQuaternion_yaw_y (v : Vec3) (cy : ℝ) :
    (v.applyQuaternion (Quat.setFromEulerXYZ 0 cy 0)).y = v.y :=
  Vec3.applyQuaternion_y v _ (Quat.setFromEulerXYZ_yaw_x cy) (Quat.setFromEulerXYZ_yaw_z cy)

lemma setLength_moveInput_y (k : Keys) (l : ℝ) : ((moveInput k).setLength l).y = 0 :=
  Vec3.setLength_y _ l (moveInput_y k)

lemma applyInput_grounded (delta : ℝ) (k : Keys) (camYaw : ℝ) (s : PState) :
    (applyInput delta k camYaw s).grounded = s.grounded := by
  simp only [applyInput, applyImpulseStep, updateCapsuleHeight]
  split_ifs <;> rfl

lemma applyInput_accel (delta : ℝ) (k : Keys) (camYaw : ℝ) (s : PState) :
    (applyInput delta k camYaw s).accelerationFactor =
      if s.grounded then nextAccel delta (moveInput k) s.accelerationFactor
      else s.accelerationFactor := by
  simp only [applyInput, applyImpulseStep, updateCapsuleHeight]
  split_ifs <;> rfl

lemma applyInput_wait (delta : ℝ) (k : Keys) (camYaw : ℝ) (s : PState) :
    (applyInput delta k camYaw s).wait = (s.wait || jumpGuard k s) := by
  rcases hg : s.grounded <;> rcases hw : s.wait <;> rcases hsp : k.space <;>
    simp [applyInput, applyImpulseStep, updateCapsuleHeight, jumpGuard, hg, hw, hsp]

lemma applyInput_capsule (delta : ℝ) (k : Keys) (camYaw : ℝ) (s : PState) :
    (applyInput delta k camYaw s).capsuleHeight =
      (if jumpGuard k s then jumpCapsuleHeight else s.capsuleHeight) ∧
    (applyInput delta k camYaw s).capsuleTranslation =
      (if jumpGuard k s then jumpCapsuleTranslation else s.capsuleTranslation) ∧
    (applyInput delta k camYaw s).capsuleMass =
      (if jumpGuard k s then (0.5 : ℝ) else s.capsuleMass) := by
  rcases hg : s.grounded <;> rcases hw : s.wait <;> rcases hsp : k.space <;>
    simp [applyInput, applyImpulseStep, updateCapsuleHeight, jumpGuard, hg, hw, hsp]

lemma applyInput_lastImpulse_y (delta : ℝ) (k : Keys) (camYaw : ℝ) (s : PState) :
    (applyInput delta k camYaw s).lastImpulse.y = if jumpGuard k s then 5 else 0 := by
  rcases hg : s.grounded <;> rcases hw : s.wait <;> rcases hsp : k.space <;>
    simp [applyInput, applyImpulseStep, updateCapsuleHeight, jumpGuard, hg, hw, hsp,
      Vec3.applyQuaternion_yaw_y, setLength_moveInput_y, Vec3.applyQuaternion_zero]

lemma applyInput_misc (delta : ℝ) (k : Keys) (camYaw : ℝ) (s : PState) :
    (applyInput delta k camYaw s).bodyTranslation = s.bodyTranslation ∧
    (applyInput delta k camYaw s).followTargetPos = s.followTargetPos ∧
    (applyInput delta k camYaw s).pivotPos = s.pivotPos ∧
    (applyInput delta k camYaw s).avatar = s.avatar ∧
    (applyInput delta k camYaw s).uiResetCount = s.uiResetCount := by
  simp only [applyInput, applyImpulseStep, updateCapsuleHeight]
  split_ifs <;> exact ⟨rfl, rfl, rfl, rfl, rfl⟩

lemma oobStep_proj (s : PState) :
    (oobStep s).grounded = s.grounded ∧
    (oobStep s).wait = s.wait ∧
    (oobStep s).accelerationFactor = s.accelerationFactor ∧
    (oobStep s).capsuleHeight = s.capsuleHeight ∧
    (oobStep s).capsuleTranslation = s.capsuleTranslation ∧
    (oobStep s).capsuleMass = s.capsuleMass ∧
    (oobStep s).followTargetPos = s.followTargetPos ∧
    (oobStep s).pivotPos = s.pivotPos ∧
    (oobStep s).avatar = s.avatar ∧
    (oobStep s).lastImpulse = s.lastImpulse := by
  unfold oobStep reset
  split_ifs <;> repeat' constructor

lemma oobStep_oob (s : PState) (h : s.bodyTranslation.y < -3) : oobStep s = reset s := by
  unfold oobStep
  rw [if_pos h]

lemma oobStep_inb (s : PState) (h : ¬ s.bodyTranslation.y < -3) : oobStep s = s := by
  unfold oobStep
  rw [if_neg h]

lemma followStep_proj (delta : ℝ) (s : PState) :
    (followStep delta s).grounded = s.grounded ∧
    (followStep delta s).wait = s.wait ∧
    (followStep delta s).accelerationFactor = s.accelerationFactor ∧
    (followStep delta s).bodyTranslation = s.bodyTranslation ∧
    (followStep delta s).bodyLinvel = s.bodyLinvel ∧
    (followStep delta s).capsuleHeight = s.capsuleHeight ∧
    (followStep delta s).capsuleTranslation = s.capsuleTranslation ∧
    (followStep delta s).capsuleMass = s.capsuleMass ∧
    (followStep delta s).uiResetCount = s.uiResetCount ∧
    (followStep delta s).lastImpulse = s.lastImpulse := by
  repeat' constructor

lemma followStep_followTargetPos (delta : ℝ) (s : PState) :
    (followStep delta s).followTargetPos = s.bodyTranslation := rfl

lemma followStep_pivotPos (delta : ℝ) (s : PState) :
    (followStep delta s).pivotPos = s.pivotPos.lerp s.bodyTranslation (delta * 10) := rfl

lemma followStep_avatar (delta : ℝ) (s : PState) :
    (followStep delta s).avatar =
      s.avatar.map fun av =>
        { av with position := av.position.lerp s.bodyTranslation (delta * 20) } := rfl

lemma orientStep_proj (delta : ℝ) (rawTarget : Quat) (s : PState) :
    (orientStep delta rawTarget s).grounded = s.grounded ∧
    (orientStep delta rawTarget s).wait = s.wait ∧
    (orientStep delta rawTarget s).accelerationFactor = s.accelerationFactor ∧
    (orientStep delta rawTarget s).bodyTranslation = s.bodyTranslation ∧
    (orientStep delta rawTarget s).bodyLinvel = s.bodyLinvel ∧
    (orientStep delta rawTarget s).capsuleHeight = s.capsuleHeight ∧
    (orientStep delta rawTarget s).capsuleTranslation = s.capsuleTranslation ∧
    (orientStep delta rawTarget s).capsuleMass = s.capsuleMass ∧
    (orientStep delta rawTarget s).followTargetPos = s.followTargetPos ∧
    (orientStep delta rawTarget s).pivotPos = s.pivotPos ∧
    (orientStep delta rawTarget s).uiResetCount = s.uiResetCount ∧
    (orientStep delta rawTarget s).lastImpulse = s.lastImpulse := by
  unfold orientStep
  rcases s.avatar with _ | av
  · repeat' constructor
  · dsimp only
    split_ifs <;> repeat' constructor

lemma orientStep_avatar_position (delta : ℝ) (rawTarget : Quat) (s : PState) (av : Avatar)
    (hav : s.avatar = some av) :
    ∃ av2, (orientStep delta rawTarget s).avatar = some av2 ∧ av2.position = av.position := by
  unfold orientStep
  rw [hav]
  dsimp only
  split_ifs
  · exact ⟨_, rfl, rfl⟩
  · exact ⟨av, hav, rfl⟩

/-- Orientation invariant of claim C6: when an avatar is present, its
quaternion has zero X and Z components (rotation about the vertical axis
only). -/
def yawOnlyA : Option Avatar → Prop
  | none => True
  | some av => av.quaternion.x = 0 ∧ av.quaternion.z = 0

lemma followStep_yawOnly (delta : ℝ) (s : PState) (h : yawOnlyA s.avatar) :
    yawOnlyA (followStep delta s).avatar := by
  rw [followStep_avatar]
  rcases hav : s.avatar with _ | av
  · exact trivial
  · rw [hav] at h
    exact h

lemma orientStep_yawOnly (delta : ℝ) (rawTarget : Quat) (s : PState) (h : yawOnlyA s.avatar) :
    yawOnlyA (orientStep delta rawTarget s).avatar := by
  unfold orientStep
  rcases hav : s.avatar with _ | av
  · exact h
  · rw [hav] at h
    dsimp only
    split_ifs with hcond
    · exact Quat.rotateTowards_xz _ _ _ h.1 h.2
        (Quat.normalizeQ_xz _ rfl rfl).1 (Quat.normalizeQ_xz _ rfl rfl).2
    · rw [hav]
      exact h

/-! Composition of the stage lemmas into facts about Player.update. -/

lemma update_grounded (delta : ℝ) (k : Keys) (camYaw : ℝ) (rawTarget : Quat) (s : PState) :
    (update delta k camYaw rawTarget s).grounded = s.grounded := by
  unfold update
  rw [(orientStep_proj _ _ _).1, (followStep_proj _ _).1, (oobStep_proj _).1,
    applyInput_grounded]

lemma update_wait (delta : ℝ) (k : Keys) (camYaw : ℝ) (rawTarget : Quat) (s : PState) :
    (update delta k camYaw rawTarget s).wait = (s.wait || jumpGuard k s) := by
  unfold update
  rw [(orientStep_proj _ _ _).2.1, (followStep_proj _ _).2.1, (oobStep_proj _).2.1,
    applyInput_wait]

lemma update_accel (delta : ℝ) (k : Keys) (camYaw : ℝ) (rawTarget : Quat) (s : PState) :
    (update delta k camYaw rawTarget s).accelerationFactor =
      if s.grounded then nextAccel delta (moveInput k) s.accelerationFactor
      else s.accelerationFactor := by
  unfold update
  rw [(orientStep_proj _ _ _).2.2.1, (followStep_proj _ _).2.2.1, (oobStep_proj _).2.2.1,
    applyInput_accel]

lemma update_lastImpulse (delta : ℝ) (k : Keys) (camYaw : ℝ) (rawTarget : Quat) (s : PState) :
    (update delta k camYaw rawTarget s).lastImpulse =
      (applyInput delta k camYaw s).lastImpulse := by
  unfold update
  rw [(orientStep_proj _ _ _).2.2.2.2.2.2.2.2.2.2.2, (followStep_proj _ _).2.2.2.2.2.2.2.2.2,
    (oobStep_proj _).2.2.2.2.2.2.2.2.2]

lemma update_lastImpulse_y (delta : ℝ) (k : Keys) (camYaw : ℝ) (rawTarget : Quat) (s : PState) :
    (update delta k camYaw rawTarget s).lastImpulse.y = if jumpGuard k s then 5 else 0 := by
  rw [update_lastImpulse, applyInput_lastImpulse_y]

lemma update_capsule (delta : ℝ) (k : Keys) (camYaw : ℝ) (rawTarget : Quat) (s : PState) :
    (update delta k camYaw rawTarget s).capsuleHeight =
      (if jumpGuard k s then jumpCapsuleHeight else s.capsuleHeight) ∧
    (update delta k camYaw rawTarget s).capsuleTranslation =
      (if jumpGuard k s then jumpCapsuleTranslation else s.capsuleTranslation) := by
  unfold update
  constructor
  · rw [(orientStep_proj _ _ _).2.2.2.2.2.1, (followStep_proj _ _).2.2.2.2.2.1,
      (oobStep_proj _).2.2.2.1, (applyInput_capsule _ _ _ _).1]
  · rw [(orientStep_proj _ _ _).2.2.2.2.2.2.1, (followStep_proj _ _).2.2.2.2.2.2.1,
      (oobStep_proj _).2.2.2.2.1, (applyInput_capsule _ _ _ _).2.1]

lemma update_yawOnly (delta : ℝ) (k : Keys) (camYaw : ℝ) (rawTarget : Quat) (s : PState)
    (h : yawOnlyA s.avatar) :
    yawOnlyA (update delta k camYaw rawTarget s).avatar := by
  unfold update
  apply orientStep_yawOnly
  apply followStep_yawOnly
  rw [(oobStep_proj _).2.2.2.2.2.2.2.2.1, (applyInput_misc _ _ _ _).2.2.2.1]
  exact h

end Player

namespace Sys

open Player

lemma fireDue_proj (t : ℚ) (s : SState) :
    (fireDue t s).p.grounded = s.p.grounded ∧
    (fireDue t s).p.accelerationFactor = s.p.accelerationFactor ∧
    (fireDue t s).p.capsuleHeight = s.p.capsuleHeight ∧
    (fireDue t s).p.capsuleTranslation = s.p.capsuleTranslation ∧
    (fireDue t s).p.avatar = s.p.avatar ∧
    (fireDue t s).p.lastImpulse = s.p.lastImpulse := by
  repeat' constructor

lemma fireDue_wait_false (t : ℚ) (s : SState) (h : s.p.wait = false) :
    (fireDue t s).p.wait = false := by
  simp only [fireDue]
  split_ifs <;> simp [h]

lemma setGrounded_grounded (t : ℚ) (g : Bool) (s : SState) :
    (setGrounded t g s).p.grounded = g := by
  unfold setGrounded
  split_ifs with h1 h2
  · exact h1.symm
  · rfl
  · rfl

lemma setGrounded_proj (t : ℚ) (g : Bool) (s : SState) :
    (setGrounded t g s).p.wait = s.p.wait ∧
    (setGrounded t g s).p.accelerationFactor = s.p.accelerationFactor ∧
    (setGrounded t g s).p.avatar = s.p.avatar ∧
    (setGrounded t g s).p.lastImpulse = s.p.lastImpulse := by
  unfold setGrounded updateCapsuleHeight
  split_ifs <;> exact ⟨rfl, rfl, rfl, rfl⟩

lemma setGrounded_land_capsule (t : ℚ) (s : SState) (h : s.p.grounded = false) :
    (setGrounded t true s).p.capsuleHeight = originalCapsuleHeight ∧
    (setGrounded t true s).p.capsuleTranslation = originalCapsuleTranslation := by
  unfold setGrounded updateCapsuleHeight
  rw [h]
  simp

lemma stepEvent_accel (t : ℚ) (ev : Event) (s : SState) :
    (stepEvent t ev s).p.accelerationFactor =
      match ev with
      | .upd delta k _ _ =>
          if s.p.grounded then nextAccel delta (moveInput k) s.p.accelerationFactor
          else s.p.accelerationFactor
      | .ground _ => s.p.accelerationFactor
      | .initDone _ => s.p.accelerationFactor := by
  rcases ev with ⟨delta, k, cy, rq⟩ | g | pos
  · simp only [stepEvent, update_accel]
    rw [(fireDue_proj t s).1, (fireDue_proj t s).2.1]
  · simp only [stepEvent, (setGrounded_proj t g (fireDue t s)).2.1]
    exact (fireDue_proj t s).2.1
  · exact (fireDue_proj t s).2.1

lemma stepEvent_upd_eq (t : ℚ) (delta : ℝ) (k : Keys) (cy : ℝ) (rq : Quat) (s : SState) :
    stepEvent t (.upd delta k cy rq) s =
      { fireDue t s with p := Player.update delta k cy rq (fireDue t s).p } := rfl

lemma stepEvent_ground_eq (t : ℚ) (g : Bool) (s : SState) :
    stepEvent t (.ground g) s = setGrounded t g (fireDue t s) := rfl

lemma stepEvent_initDone_eq (t : ℚ) (pos : Vec3) (s : SState) :
    stepEvent t (.initDone pos) s =
      { fireDue t s with p := { (fireDue t s).p with avatar := some ⟨pos, ⟨0, 0, 0, 1⟩⟩ } } := rfl

lemma fireDue_wait_of_no_due (t : ℚ) (s : SState) (hw : s.p.wait = true)
    (h : ∀ e ∈ s.timers, ¬ e ≤ t) : (fireDue t s).p.wait = true := by
  simp only [fireDue]
  have hany : (s.timers.any fun e => decide (e ≤ t)) = false := by
    rw [List.any_eq_false]
    intro e he
    simp only [decide_eq_true_eq]
    exact h e he
  rw [hany]
  simp [hw]

lemma fireDue_timers_mem (t : ℚ) (s : SState) (e : ℚ) (he : e ∈ (fireDue t s).timers) :
    e ∈ s.timers := by
  simp only [fireDue] at he
  exact (List.mem_filter.1 he).1

lemma setGrounded_timers_mem (t : ℚ) (g : Bool) (s : SState) (e : ℚ)
    (he : e ∈ (setGrounded t g s).timers) : e ∈ s.timers ∨ e = t + 250 := by
  unfold setGrounded at he
  split_ifs at he
  · exact .inl he
  · rcases List.mem_append.1 he with h1 | h2
    · exact .inl h1
    · exact .inr (List.mem_singleton.1 h2)
  · exact .inl he

/-- One event inside the cooldown window: while the wait flag is set and
every pending timer expires at or after the window end, any single event at
a time strictly inside the window preserves both facts. -/
lemma stepEvent_window (tJ t : ℚ) (ev : Event) (s : SState) (hw : s.p.wait = true)
    (ht : ∀ e ∈ s.timers, tJ + 250 ≤ e) (h1 : tJ ≤ t) (h2 : t < tJ + 250) :
    (stepEvent t ev s).p.wait = true ∧ ∀ e ∈ (stepEvent t ev s).timers, tJ + 250 ≤ e := by
  have hnofire : ∀ e ∈ s.timers, ¬ e ≤ t := fun e he hle =>
    absurd (lt_of_le_of_lt (le_trans (ht e he) hle) h2) (lt_irrefl _)
  have hfw : (fireDue t s).p.wait = true := fireDue_wait_of_no_due t s hw hnofire
  have hft : ∀ e ∈ (fireDue t s).timers, tJ + 250 ≤ e := fun e he =>
    ht e (fireDue_timers_mem t s e he)
  rcases ev with ⟨delta, k, cy, rq⟩ | g | pos
  · rw [stepEvent_upd_eq]
    refine ⟨?_, hft⟩
    rw [update_wait, hfw]
    rfl
  · rw [stepEvent_ground_eq]
    refine ⟨?_, ?_⟩
    · rw [(setGrounded_proj _ _ _).1]
      exact hfw
    · intro e he
      rcases setGrounded_timers_mem t g (fireDue t s) e he with h | h
      · exact hft e h
      · rw [h]
        linarith
  · rw [stepEvent_initDone_eq]
    exact ⟨hfw, hft⟩

/-- Invariant behind the amended claim C4: once the wait flag is set (by a
successful jump at time tJ) and every pending timer expires at or after
tJ + 250, any event sequence whose timestamps stay inside the window
[tJ, tJ + 250) leaves the wait flag set and the timer bound intact. -/
lemma runEvents_window (tJ : ℚ) (evs : List (ℚ × Event)) (s : SState) (hw : s.p.wait = true)
    (ht : ∀ e ∈ s.timers, tJ + 250 ≤ e)
    (hevs : ∀ pe ∈ evs, tJ ≤ pe.1 ∧ pe.1 < tJ + 250) :
    (runEvents evs s).p.wait = true ∧ ∀ e ∈ (runEvents evs s).timers, tJ + 250 ≤ e := by
  induction evs generalizing s with
  | nil => exact ⟨hw, ht⟩
  | cons pe rest ih =>
    have hpe := hevs pe (List.mem_cons_self pe rest)
    have hstep := stepEvent_window tJ pe.1 pe.2 s hw ht hpe.1 hpe.2
    exact ih (stepEvent pe.1 pe.2 s) hstep.1 hstep.2
      (fun q hq => hevs q (List.mem_cons_of_mem pe hq))

lemma stepEvent_yawOnly (t : ℚ) (ev : Event) (s : SState) (h : yawOnlyA s.p.avatar) :
    yawOnlyA (stepEvent t ev s).p.avatar := by
  rcases ev with ⟨delta, k, cy, rq⟩ | g | pos
  · apply update_yawOnly
    rw [(fireDue_proj t s).2.2.2.2.1]
    exact h
  · show yawOnlyA (setGrounded t g (fireDue t s)).p.avatar
    rw [(setGrounded_proj t g (fireDue t s)).2.2.1, (fireDue_proj t s).2.2.2.2.1]
    exact h
  · exact ⟨rfl, rfl⟩

lemma runEvents_yawOnly (evs : List (ℚ × Event)) (s : SState) (h : yawOnlyA s.p.avatar) :
    yawOnlyA (runEvents evs s).p.avatar := by
  induction evs generalizing s with
  | nil => exact h
  | cons pe rest ih => exact ih _ (stepEvent_yawOnly pe.1 pe.2 s h)

/-- Invariant behind claim C2: throughout every reachable state the
acceleration factor stays within the closed interval from 1 to 2. -/
lemma accel_invariant {s : SState} (hs : Reachable s) :
    1 ≤ s.p.accelerationFactor ∧ s.p.accelerationFactor ≤ 2 := by
  induction hs with
  | init pos pivot0 =>
    simp [init0, Player.construct]
  | step t ev hev hs ih =>
    rw [and_comm] at ih
    obtain ⟨ih2, ih1⟩ := ih
    rw [stepEvent_accel]
    rcases ev with ⟨delta, k, cy, rq⟩ | g | pos
    · simp only [goodEvent] at hev
      dsimp only
      split_ifs with hg
      · rw [nextAccel_eq]
        split_ifs with hk hbig
        · norm_num
        · constructor
          · nlinarith
          · linarith [not_lt.1 hbig]
        · norm_num
      · exact ⟨ih1, ih2⟩
    · exact ⟨ih1, ih2⟩
    · exact ⟨ih1, ih2⟩

end Sys

/-! Concrete fixtures used by witnesses and counterexamples. -/

/-- Zero vector fixture. -/
def vZero : Vec3 := ⟨0, 0, 0⟩

/-- Identity quaternion fixture (also the stand-in for the lookAt oracle in
concrete runs). -/
def qId : Quat := ⟨0, 0, 0, 1⟩

/-- Keyboard snapshot with no key held. -/
def kNone : Player.Keys := ⟨false, false, false, false, false⟩

/-- Keyboard snapshot with only KeyW held. -/
def kW : Player.Keys := ⟨true, false, false, false, false⟩

/-- Keyboard snapshot with only Space held. -/
def kSpace : Player.Keys := ⟨false, false, false, false, true⟩

/-- Keyboard snapshot with all four directional keys held. -/
def kAllDir : Player.Keys := ⟨true, true, true, true, false⟩

/-- A Player state that has become grounded (as after the first
setGrounded(true)) with every other field as constructed. -/
def sGrounded : Player.PState := { Player.construct vZero vZero with grounded := true }

/-! Claim C1. -/

/-- C1 counterexample: the claim says the grounded flag is true immediately
after the constructor runs, but the field initializer at line 19 of
Player.ts sets grounded to false; at the concrete spawn input the
freshly constructed state is not grounded. -/
theorem C1_counterexample : ¬ ((Sys.init0 ⟨0, 0, 0⟩ ⟨0, 0, 0⟩).p.grounded = true) := by
  simp [Sys.init0, Player.construct]

/-- C1 amended: immediately after the constructor runs and before any
setGrounded call, the controller's grounded flag is false (the state machine
starts Airborne and only the first setGrounded(true) makes it Grounded). -/
theorem C1_initial_grounded_false (position pivot0 : Vec3) :
    (Sys.init0 position pivot0).p.grounded = false := rfl

/-! Claim C8. -/

/-- C8: when both forward and back keys are held in one frame the local
direction vector's forward/back axis resolves to the back key's value
(z = 1, back wins), and when both left and right are held the left/right
axis resolves to the right key's value (x = 1, right wins), for every input
snapshot (the vector is read only while grounded). -/
theorem C8_opposed_keys (k : Player.Keys) :
    (k.keyW = true → k.keyS = true → (Player.moveInput k).z = 1) ∧
    (k.keyA = true → k.keyD = true → (Player.moveInput k).x = 1) := by
  constructor
  · intro hw hs
    simp only [Player.moveInput, hw, hs]
    split_ifs <;> rfl
  · intro ha hd
    simp only [Player.moveInput, ha, hd]
    split_ifs <;> rfl

/-- C8 witness: with all four directional keys held, back and right win. -/
theorem C8_witness :
    (Player.moveInput kAllDir).z = 1 ∧ (Player.moveInput kAllDir).x = 1 :=
  ⟨(C8_opposed_keys kAllDir).1 rfl rfl, (C8_opposed_keys kAllDir).2 rfl rfl⟩

/-! Claim C9. -/

/-- C9: after any Airborne to Grounded transition (setGrounded(true) while
airborne) the collider attached to the body is the standing profile: capsule
height 0.5 and translation (0, 0.645, 0), regardless of the profile attached
immediately before the transition. -/
theorem C9_landing_restores_standing (t : ℚ) (s : Sys.SState) (h : s.p.grounded = false) :
    (Sys.stepEvent t (.ground true) s).p.capsuleHeight = 0.5 ∧
    (Sys.stepEvent t (.ground true) s).p.capsuleTranslation = ⟨0, 0.645, 0⟩ := by
  rw [Sys.stepEvent_ground_eq]
  have hfg : (Sys.fireDue t s).p.grounded = false := by
    rw [(Sys.fireDue_proj t s).1]
    exact h
  exact Sys.setGrounded_land_capsule t (Sys.fireDue t s) hfg

/-- A Player system state that is airborne while the crouch-jump collider
profile is still attached (as mid-jump). -/
def sAirborneJumpProfile : Sys.SState :=
  ⟨{ Player.construct vZero vZero with
      capsuleHeight := Player.jumpCapsuleHeight
      capsuleTranslation := Player.jumpCapsuleTranslation }, []⟩

/-- C9 witness: landing from the crouch-jump profile restores height 0.5 and
translation (0, 0.645, 0). -/
theorem C9_witness :
    sAirborneJumpProfile.p.grounded = false ∧
    (Sys.stepEvent 0 (.ground true) sAirborneJumpProfile).p.capsuleHeight = 0.5 ∧
    (Sys.stepEvent 0 (.ground true) sAirborneJumpProfile).p.capsuleTranslation = ⟨0, 0.645, 0⟩ :=
  ⟨rfl, (C9_landing_restores_standing 0 sAirborneJumpProfile rfl).1,
    (C9_landing_restores_standing 0 sAirborneJumpProfile rfl).2⟩

/-! Claim C10. -/

/-- C10: the wait flag is set only by a successful jump inside update: a
setGrounded event never turns wait on (it only schedules clearing it),
update turns wait on exactly when the jump guard fires, and consequently
after landing from an airborne episode with wait clear (one that did not
begin with a jump), a jump key held on the very next update produces a jump
(vertical impulse component 5) with no cooldown window. -/
theorem C10_no_cooldown_after_plain_landing :
    (∀ (t : ℚ) (g : Bool) (s : Sys.SState), s.p.wait = false →
      (Sys.stepEvent t (.ground g) s).p.wait = false) ∧
    (∀ (delta : ℝ) (k : Player.Keys) (cy : ℝ) (rq : Quat) (s : Player.PState),
      (Player.update delta k cy rq s).wait = (s.wait || Player.jumpGuard k s)) ∧
    (∀ (t t2 : ℚ) (delta : ℝ) (k : Player.Keys) (cy : ℝ) (rq : Quat) (s : Sys.SState),
      s.p.grounded = false → s.p.wait = false → k.space = true →
      (Sys.stepEvent t2 (.upd delta k cy rq) (Sys.stepEvent t (.ground true) s)).p.lastImpulse.y = 5) := by
  refine ⟨?_, ?_, ?_⟩
  · intro t g s hw
    rw [Sys.stepEvent_ground_eq, (Sys.setGrounded_proj t g (Sys.fireDue t s)).1]
    exact Sys.fireDue_wait_false t s hw
  · intro delta k cy rq s
    exact Player.update_wait delta k cy rq s
  · intro t t2 delta k cy rq s hg hw hsp
    set s1 := Sys.stepEvent t (.ground true) s with hs1
    have h1g : s1.p.grounded = true := by
      rw [hs1, Sys.stepEvent_ground_eq]
      exact Sys.setGrounded_grounded t true (Sys.fireDue t s)
    have h1w : s1.p.wait = false := by
      rw [hs1, Sys.stepEvent_ground_eq, (Sys.setGrounded_proj t true (Sys.fireDue t s)).1]
      exact Sys.fireDue_wait_false t s hw
    rw [Sys.stepEvent_upd_eq, Player.update_lastImpulse_y]
    have hfg : (Sys.fireDue t2 s1).p.grounded = true := by
      rw [(Sys.fireDue_proj t2 s1).1]
      exact h1g
    have hfw : (Sys.fireDue t2 s1).p.wait = false := Sys.fireDue_wait_false t2 s1 h1w
    simp [Player.jumpGuard, hfg, hfw, hsp]

/-- C10 witness: from the freshly constructed state (airborne, wait clear),
a landing followed by an update with Space held yields vertical impulse 5;
and a ground event keeps wait clear. -/
theorem C10_witness :
    (Sys.init0 vZero vZero).p.grounded = false ∧
    (Sys.init0 vZero vZero).p.wait = false ∧
    (Sys.stepEvent 10 (.ground true) (Sys.init0 vZero vZero)).p.wait = false ∧
    (Sys.stepEvent 20 (.upd 1 kSpace 0 qId)
        (Sys.stepEvent 10 (.ground true) (Sys.init0 vZero vZero))).p.lastImpulse.y = 5 :=
  ⟨rfl, rfl,
    C10_no_cooldown_after_plain_landing.1 10 true (Sys.init0 vZero vZero) rfl,
    C10_no_cooldown_after_plain_landing.2.2 10 20 1 kSpace 0 qId (Sys.init0 vZero vZero)
      rfl rfl rfl⟩

/-! Claim C7. -/

/-- C7: for every positive delta, when the controller is grounded and no
directional or jump key is held, the impulse computed and applied by
update (after the camera-yaw rotation) is exactly the zero vector. -/
theorem C7_idle_zero_impulse (delta cy : ℝ) (rq : Quat) (s : Player.PState)
    (k : Player.Keys) (hdelta : 0 < delta) (hg : s.grounded = true)
    (hw : k.keyW = false) (hs : k.keyS = false) (ha : k.keyA = false) (hd : k.keyD = false)
    (hsp : k.space = false) :
    (Player.update delta k cy rq s).lastImpulse = ⟨0, 0, 0⟩ := by
  rw [Player.update_lastImpulse]
  have hmi : Player.moveInput k = ⟨0, 0, 0⟩ := Player.moveInput_zero k hw hs ha hd
  simp [Player.applyInput, Player.applyImpulseStep, Player.updateCapsuleHeight, hg, hsp, hmi,
    Vec3.setLength_zero, Vec3.applyQuaternion_zero]

/-- C7 witness: at delta 1 from the grounded fixture with no keys held, the
applied impulse is the zero vector. -/
theorem C7_witness :
    (0 : ℝ) < 1 ∧ (Player.update 1 kNone 0 qId sGrounded).lastImpulse = ⟨0, 0, 0⟩ :=
  ⟨one_pos, C7_idle_zero_impulse 1 0 qId sGrounded kNone one_pos rfl rfl rfl rfl rfl rfl⟩

/-! Claim C6. -/

/-- C6: in every run from a freshly constructed Player, whatever events
occur (frames with any inputs and any lookAt oracle values, collision
callbacks, the init resolution that installs the avatar with the three.js
default identity orientation), the avatar orientation quaternion always has
X component 0 and Z component 0 — in particular after the
orientation-correction step of every update call, whether or not the
rotate-towards branch ran that frame. -/
theorem C6_yaw_only_orientation (position pivot0 : Vec3) (evs : List (ℚ × Sys.Event)) :
    Player.yawOnlyA (Sys.runEvents evs (Sys.init0 position pivot0)).p.avatar :=
  Sys.runEvents_yawOnly evs (Sys.init0 position pivot0) trivial

/-! Claim C5. -/

/-- C5: when the body's vertical position is below -3 at the start of
update(delta) (the out-of-bounds test at line 137 reads the same
translation, since applying an impulse changes only the velocity), reset()
runs exactly once that frame: the ui reset notification count rises by
exactly one, the body linear velocity becomes exactly (0, 0, 0) and its
translation exactly (0, 1, 0), and the avatar-follower steps later in the
same update read the post-reset body: the followTarget proxy is placed at
(0, 1, 0) and both the camera pivot and the avatar position lerp toward
(0, 1, 0). -/
theorem C5_oob_reset (delta cy : ℝ) (rq : Quat) (k : Player.Keys) (s : Player.PState)
    (h : s.bodyTranslation.y < -3) :
    (Player.update delta k cy rq s).uiResetCount = s.uiResetCount + 1 ∧
    (Player.update delta k cy rq s).bodyLinvel = ⟨0, 0, 0⟩ ∧
    (Player.update delta k cy rq s).bodyTranslation = ⟨0, 1, 0⟩ ∧
    (Player.update delta k cy rq s).followTargetPos = ⟨0, 1, 0⟩ ∧
    (Player.update delta k cy rq s).pivotPos = s.pivotPos.lerp ⟨0, 1, 0⟩ (delta * 10) ∧
    (∀ av, s.avatar = some av → ∃ av2, (Player.update delta k cy rq s).avatar = some av2 ∧
      av2.position = av.position.lerp ⟨0, 1, 0⟩ (delta * 20)) := by
  unfold Player.update
  set A := Player.applyInput delta k cy s with hA
  have hAmisc := Player.applyInput_misc delta k cy s
  have hoob : Player.oobStep A = Player.reset A := by
    apply Player.oobStep_oob
    rw [hAmisc.1]
    exact h
  rw [hoob]
  have hRt : (Player.reset A).bodyTranslation = ⟨0, 1, 0⟩ := rfl
  have hRv : (Player.reset A).bodyLinvel = ⟨0, 0, 0⟩ := rfl
  have hRp : (Player.reset A).pivotPos = s.pivotPos := by
    show A.pivotPos = s.pivotPos
    exact hAmisc.2.2.1
  have hRa : (Player.reset A).avatar = s.avatar := by
    show A.avatar = s.avatar
    exact hAmisc.2.2.2.1
  refine ⟨?_, ?_, ?_, ?_, ?_, ?_⟩
  · rw [(Player.orientStep_proj _ _ _).2.2.2.2.2.2.2.2.2.2.1,
      (Player.followStep_proj _ _).2.2.2.2.2.2.2.2.1]
    show A.uiResetCount + 1 = s.uiResetCount + 1
    rw [hAmisc.2.2.2.2]
  · rw [(Player.orientStep_proj _ _ _).2.2.2.2.1, (Player.followStep_proj _ _).2.2.2.2.1, hRv]
  · rw [(Player.orientStep_proj _ _ _).2.2.2.1, (Player.followStep_proj _ _).2.2.2.1, hRt]
  · rw [(Player.orientStep_proj _ _ _).2.2.2.2.2.2.2.2.1,
      Player.followStep_followTargetPos, hRt]
  · rw [(Player.orientStep_proj _ _ _).2.2.2.2.2.2.2.2.2.1,
      Player.followStep_pivotPos, hRt, hRp]
  · intro av hav
    have hfa : (Player.followStep delta (Player.reset A)).avatar =
        some { av with position := av.position.lerp ⟨0, 1, 0⟩ (delta * 20) } := by
      rw [Player.followStep_avatar, hRa, hav, hRt]
      rfl
    obtain ⟨av2, hav2, hpos⟩ :=
      Player.orientStep_avatar_position delta rq (Player.followStep delta (Player.reset A))
        { av with position := av.position.lerp ⟨0, 1, 0⟩ (delta * 20) } hfa
    exact ⟨av2, hav2, hpos⟩

/-- A Player state below the kill plane: body at (0, -4, 0). -/
def sOob : Player.PState := { Player.construct vZero vZero with bodyTranslation := ⟨0, -4, 0⟩ }

/-- C5 witness: at the concrete out-of-bounds state the frame resets the
body exactly once and the follower steps read the reset translation. -/
theorem C5_witness :
    sOob.bodyTranslation.y < -3 ∧
    ((Player.update 1 kNone 0 qId sOob).uiResetCount = sOob.uiResetCount + 1 ∧
     (Player.update 1 kNone 0 qId sOob).bodyLinvel = ⟨0, 0, 0⟩ ∧
     (Player.update 1 kNone 0 qId sOob).bodyTranslation = ⟨0, 1, 0⟩ ∧
     (Player.update 1 kNone 0 qId sOob).followTargetPos = ⟨0, 1, 0⟩ ∧
     (Player.update 1 kNone 0 qId sOob).pivotPos = sOob.pivotPos.lerp ⟨0, 1, 0⟩ (1 * 10) ∧
     (∀ av, sOob.avatar = some av → ∃ av2,
        (Player.update 1 kNone 0 qId sOob).avatar = some av2 ∧
        av2.position = av.position.lerp ⟨0, 1, 0⟩ (1 * 20))) := by
  have hy : sOob.bodyTranslation.y < -3 := by
    show (-4 : ℝ) < -3
    norm_num
  exact ⟨hy, C5_oob_reset 1 0 qId kNone sOob hy⟩

/-! Claim C2. -/

/-- C2 counterexample trace, step 1: the constructed Player becomes
grounded at time 0. -/
def c2s1 : Sys.SState := Sys.stepEvent 0 (.ground true) (Sys.init0 vZero vZero)

/-- C2 counterexample trace, step 2: a frame at time 16 with the forward
key held raises the acceleration factor above 1. -/
def c2s2 : Sys.SState := Sys.stepEvent 16 (.upd 0.016 kW 0 qId) c2s1

/-- C2 counterexample trace, step 3: the Player goes airborne at time 32. -/
def c2s3 : Sys.SState := Sys.stepEvent 32 (.ground false) c2s2

/-- C2 counterexample trace, step 4: a frame at time 48 with no key held,
while airborne. -/
def c2s4 : Sys.SState := Sys.stepEvent 48 (.upd 0.016 kNone 0 qId) c2s3

lemma c2s1_facts : c2s1.p.grounded = true ∧ c2s1.p.accelerationFactor = 1 := by
  refine ⟨Sys.setGrounded_grounded 0 true _, ?_⟩
  show (Sys.setGrounded 0 true (Sys.fireDue 0 (Sys.init0 vZero vZero))).p.accelerationFactor = 1
  rw [(Sys.setGrounded_proj _ _ _).2.1, (Sys.fireDue_proj _ _).2.1]
  rfl

lemma c2s2_accel : c2s2.p.accelerationFactor = 1.0016 := by
  show (Player.update 0.016 kW 0 qId (Sys.fireDue 16 c2s1).p).accelerationFactor = 1.0016
  rw [Player.update_accel]
  have hfg : (Sys.fireDue 16 c2s1).p.grounded = true := by
    rw [(Sys.fireDue_proj _ _).1]
    exact c2s1_facts.1
  have hfa : (Sys.fireDue 16 c2s1).p.accelerationFactor = 1 := by
    rw [(Sys.fireDue_proj _ _).2.1]
    exact c2s1_facts.2
  rw [hfg, hfa, if_pos rfl, Player.nextAccel_eq]
  norm_num [Player.anyDir, kW]

lemma c2s4_accel : c2s4.p.accelerationFactor = 1.0016 := by
  have h3g : c2s3.p.grounded = false := Sys.setGrounded_grounded 32 false _
  have h3a : c2s3.p.accelerationFactor = 1.0016 := by
    show (Sys.setGrounded 32 false (Sys.fireDue 32 c2s2)).p.accelerationFactor = 1.0016
    rw [(Sys.setGrounded_proj _ _ _).2.1, (Sys.fireDue_proj _ _).2.1]
    exact c2s2_accel
  show (Player.update 0.016 kNone 0 qId (Sys.fireDue 48 c2s3).p).accelerationFactor = 1.0016
  rw [Player.update_accel]
  have hfg : (Sys.fireDue 48 c2s3).p.grounded = false := by
    rw [(Sys.fireDue_proj _ _).1]
    exact h3g
  have hfa : (Sys.fireDue 48 c2s3).p.accelerationFactor = 1.0016 := by
    rw [(Sys.fireDue_proj _ _).2.1]
    exact h3a
  rw [hfg]
  simp [hfa]

/-- C2 counterexample: in the concrete trace ground, forward frame,
airborne, no-key frame, the final update holds no directional key yet the
acceleration factor stays 1.0016 instead of resetting to 1 — the reset
branch runs only while grounded, so the claim's clause "regardless of
whether the controller is grounded or airborne" fails. -/
theorem C2_counterexample : c2s4.p.accelerationFactor ≠ 1 := by
  rw [c2s4_accel]
  norm_num

/-- C2 amended: in every reachable state the acceleration factor lies in
the closed interval from 1 to 2; after an update with no directional key
held while grounded it is exactly 1; after an update while airborne it is
unchanged (whatever keys are held). -/
theorem C2_accel_invariant :
    (∀ s : Sys.SState, Sys.Reachable s →
      1 ≤ s.p.accelerationFactor ∧ s.p.accelerationFactor ≤ 2) ∧
    (∀ (delta cy : ℝ) (rq : Quat) (k : Player.Keys) (s : Player.PState),
      s.grounded = true → Player.anyDir k = false →
      (Player.update delta k cy rq s).accelerationFactor = 1) ∧
    (∀ (delta cy : ℝ) (rq : Quat) (k : Player.Keys) (s : Player.PState),
      s.grounded = false →
      (Player.update delta k cy rq s).accelerationFactor = s.accelerationFactor) := by
  refine ⟨fun s hs => Sys.accel_invariant hs, ?_, ?_⟩
  · intro delta cy rq k s hg hk
    rw [Player.update_accel, hg, if_pos rfl, Player.nextAccel_eq, hk]
    simp
  · intro delta cy rq k s hg
    rw [Player.update_accel, hg]
    simp

/-- C2 witness: the bounds at the freshly constructed reachable state, the
exact reset to 1 for a grounded no-key frame, and preservation across an
airborne frame with the forward key held. -/
theorem C2_witness :
    (1 ≤ (Sys.init0 vZero vZero).p.accelerationFactor ∧
      (Sys.init0 vZero vZero).p.accelerationFactor ≤ 2) ∧
    (Player.update 1 kNone 0 qId sGrounded).accelerationFactor = 1 ∧
    (Player.update 1 kW 0 qId (Player.construct vZero vZero)).accelerationFactor =
      (Player.construct vZero vZero).accelerationFactor :=
  ⟨C2_accel_invariant.1 _ (Sys.Reachable.init vZero vZero),
    C2_accel_invariant.2.1 1 0 qId kNone sGrounded rfl rfl,
    C2_accel_invariant.2.2 1 0 qId kW (Player.construct vZero vZero) rfl⟩

/-! Claim C3. -/

/-- C3 scenario: frames of delta 0.016 with the forward key held, starting
from the grounded fixture whose acceleration factor is 1. -/
def c3State : ℕ → Player.PState
  | 0 => sGrounded
  | n + 1 => Player.update 0.016 kW 0 qId (c3State n)

lemma c3_closed (n : ℕ) : (c3State n).grounded = true ∧
    (c3State n).accelerationFactor = min (1 + (n : ℝ) * (1 / 625)) 2 := by
  induction n with
  | zero =>
    refine ⟨rfl, ?_⟩
    have h0 : (c3State 0).accelerationFactor = 1 := rfl
    rw [h0]
    norm_num
  | succ n ih =>
    obtain ⟨ihg, iha⟩ := ih
    constructor
    · show (Player.update 0.016 kW 0 qId (c3State n)).grounded = true
      rw [Player.update_grounded]
      exact ihg
    · show (Player.update 0.016 kW 0 qId (c3State n)).accelerationFactor = _
      rw [Player.update_accel, ihg, if_pos rfl, Player.nextAccel_eq, iha]
      have hstep : min (1 + (n : ℝ) * (1 / 625)) 2 + 0.016 * 0.1 =
          min (1 + (n : ℝ) * (1 / 625)) 2 + 1 / 625 := by norm_num
      have hcast : (1 : ℝ) + ((n : ℕ) + 1 : ℕ) * (1 / 625) =
          1 + (n : ℝ) * (1 / 625) + 1 / 625 := by
        push_cast
        ring
      rw [if_pos (show Player.anyDir kW = true from rfl), hstep, hcast]
      rcases le_or_lt ((1 : ℝ) + (n : ℝ) * (1 / 625)) 2 with hle | hgt
      · rw [min_eq_left hle]
        split_ifs with hbig
        · rw [eq_comm, min_eq_right]
          linarith
        · rw [eq_comm, min_eq_left]
          linarith
      · rw [min_eq_right hgt.le]
        split_ifs with hbig
        · rw [eq_comm, min_eq_right]
          linarith
        · exfalso
          norm_num at hbig

/-- C3 counterexample: after the 60 frames of the scenario the acceleration
factor is exactly 1.096, still far from 2.0 — so it has not converged to
2.0 within those frames (reaching 2.0 under this scenario takes 625
frames). -/
theorem C3_counterexample :
    (c3State 60).accelerationFactor = 1.096 ∧ (1.096 : ℝ) < 2 := by
  constructor
  · rw [(c3_closed 60).2]
    rw [min_eq_left (by norm_num)]
    norm_num
  · norm_num

/-- C3 amended: in the scenario (delta 0.016, grounded, forward held), the
acceleration factor increases strictly at each of the first 60 frames and
never exceeds 2; the ramp converges to 2.0 only when the input continues:
it equals exactly 2 from frame 625 onwards. -/
theorem C3_accel_ramp :
    (∀ n, n < 60 → (c3State n).accelerationFactor < (c3State (n + 1)).accelerationFactor) ∧
    (∀ n, (c3State n).accelerationFactor ≤ 2) ∧
    (∀ n, 625 ≤ n → (c3State n).accelerationFactor = 2) := by
  refine ⟨?_, ?_, ?_⟩
  · intro n hn
    rw [(c3_closed n).2, (c3_closed (n + 1)).2]
    have hcn : (n : ℝ) ≤ 59 := by
      have : n ≤ 59 := Nat.lt_succ_iff.1 hn
      exact_mod_cast this
    have h1 : (1 : ℝ) + (n : ℝ) * (1 / 625) ≤ 2 := by linarith
    have h2 : (1 : ℝ) + ((n : ℕ) + 1 : ℕ) * (1 / 625) ≤ 2 := by
      push_cast
      linarith
    rw [min_eq_left h1, min_eq_left h2]
    push_cast
    linarith
  · intro n
    rw [(c3_closed n).2]
    exact min_le_right _ _
  · intro n hn
    rw [(c3_closed n).2]
    have hcn : (625 : ℝ) ≤ (n : ℝ) := by exact_mod_cast hn
    rw [min_eq_right (by linarith)]

/-- C3 witness: strict increase at the first frame, the bound at frame 60,
and the exact cap at frame 625. -/
theorem C3_witness :
    ((0 : ℕ) < 60 ∧ (c3State 0).accelerationFactor < (c3State 1).accelerationFactor) ∧
    (c3State 60).accelerationFactor ≤ 2 ∧
    ((625 : ℕ) ≤ 625 ∧ (c3State 625).accelerationFactor = 2) :=
  ⟨⟨by norm_num, C3_accel_ramp.1 0 (by norm_num)⟩, C3_accel_ramp.2.1 60,
    ⟨le_refl 625, C3_accel_ramp.2.2 625 (le_refl 625)⟩⟩

/-! Claim C4. -/

/-- C4 counterexample trace, step 1: the constructed Player becomes
grounded at time 0, which schedules the wait-clearing timer for time 250. -/
def c4s1 : Sys.SState := Sys.stepEvent 0 (.ground true) (Sys.init0 vZero vZero)

/-- C4 counterexample trace, step 2: a frame at time 100 with Space held
performs a jump. -/
def c4s2 : Sys.SState := Sys.stepEvent 100 (.upd 0.016 kSpace 0 qId) c4s1

/-- C4 counterexample trace, step 3: a frame at time 251 — 151 ms after the
jump — with Space still held; the timer scheduled by the landing at time 0
has just cleared the wait flag. -/
def c4s3 : Sys.SState := Sys.stepEvent 251 (.upd 0.016 kSpace 0 qId) c4s2

lemma c4s1_facts :
    c4s1.p.grounded = true ∧ c4s1.p.wait = false ∧ c4s1.timers = [250] := by
  refine ⟨Sys.setGrounded_grounded 0 true _, ?_, ?_⟩
  · show (Sys.setGrounded 0 true (Sys.fireDue 0 (Sys.init0 vZero vZero))).p.wait = false
    rw [(Sys.setGrounded_proj _ _ _).1]
    exact Sys.fireDue_wait_false 0 _ rfl
  · show (Sys.setGrounded 0 true (Sys.fireDue 0 (Sys.init0 vZero vZero))).timers = [250]
    norm_num [Sys.setGrounded, Sys.fireDue, Sys.init0, Player.construct]

lemma c4s2_facts :
    c4s2.p.lastImpulse.y = 5 ∧ c4s2.p.grounded = true ∧ c4s2.p.wait = true ∧
    c4s2.timers = [250] := by
  have hfg : (Sys.fireDue 100 c4s1).p.grounded = true := by
    rw [(Sys.fireDue_proj _ _).1]
    exact c4s1_facts.1
  have hfw : (Sys.fireDue 100 c4s1).p.wait = false :=
    Sys.fireDue_wait_false 100 c4s1 c4s1_facts.2.1
  have hguard : Player.jumpGuard kSpace (Sys.fireDue 100 c4s1).p = true := by
    simp [Player.jumpGuard, hfg, hfw, kSpace]
  refine ⟨?_, ?_, ?_, ?_⟩
  · show (Player.update 0.016 kSpace 0 qId (Sys.fireDue 100 c4s1).p).lastImpulse.y = 5
    rw [Player.update_lastImpulse_y, hguard]
    rfl
  · show (Player.update 0.016 kSpace 0 qId (Sys.fireDue 100 c4s1).p).grounded = true
    rw [Player.update_grounded]
    exact hfg
  · show (Player.update 0.016 kSpace 0 qId (Sys.fireDue 100 c4s1).p).wait = true
    rw [Player.update_wait, hfw, hguard]
    rfl
  · show (Sys.fireDue 100 c4s1).timers = [250]
    norm_num [Sys.fireDue, c4s1_facts.2.2]

/-- C4 counterexample: the jump at time 100 succeeds (vertical impulse
component 5); at time 251, only 151 ms later and within the 250 ms window
after that successful jump, a second jump also succeeds with vertical
impulse component 5 — because the wait-clearing timer belongs to the
landing at time 0, not to the jump. -/
theorem C4_counterexample :
    c4s2.p.lastImpulse.y = 5 ∧ c4s3.p.lastImpulse.y = 5 ∧ (251 : ℚ) < 100 + 250 := by
  refine ⟨c4s2_facts.1, ?_, by norm_num⟩
  have hfw : (Sys.fireDue 251 c4s2).p.wait = false := by
    simp only [Sys.fireDue, c4s2_facts.2.2.2]
    norm_num
  have hfg : (Sys.fireDue 251 c4s2).p.grounded = true := by
    rw [(Sys.fireDue_proj _ _).1]
    exact c4s2_facts.2.1
  have hguard : Player.jumpGuard kSpace (Sys.fireDue 251 c4s2).p = true := by
    simp [Player.jumpGuard, hfg, hfw, kSpace]
  show (Player.update 0.016 kSpace 0 qId (Sys.fireDue 251 c4s2).p).lastImpulse.y = 5
  rw [Player.update_lastImpulse_y, hguard]
  rfl

/-- C4 amended: a jump occurs in update exactly when grounded, the wait
flag clear and the jump key held — it contributes vertical impulse
component 5 (otherwise 0), sets the wait flag and swaps the collider to the
crouch-jump profile. The 250 ms guarantee holds in the amended form: after
a successful jump at time tJ, provided every timer then pending expires no
earlier than tJ + 250 (the cooldown window is anchored to the preceding
landing, so a landing less than 250 ms before the jump breaks the premise),
every further jump attempt strictly within 250 ms contributes no vertical
impulse. -/
theorem C4_jump_gating_and_cooldown :
    (∀ (delta cy : ℝ) (rq : Quat) (k : Player.Keys) (s : Player.PState),
      (Player.update delta k cy rq s).lastImpulse.y =
        (if Player.jumpGuard k s then 5 else 0) ∧
      (Player.update delta k cy rq s).wait = (s.wait || Player.jumpGuard k s) ∧
      (Player.update delta k cy rq s).capsuleHeight =
        (if Player.jumpGuard k s then Player.jumpCapsuleHeight else s.capsuleHeight)) ∧
    (∀ (s : Sys.SState) (tJ : ℚ) (evs : List (ℚ × Sys.Event)) (t2 : ℚ)
        (delta cy : ℝ) (rq : Quat) (k : Player.Keys),
      s.p.wait = true → (∀ e ∈ s.timers, tJ + 250 ≤ e) →
      (∀ pe ∈ evs, tJ ≤ pe.1 ∧ pe.1 < tJ + 250) → tJ ≤ t2 → t2 < tJ + 250 →
      (Sys.stepEvent t2 (.upd delta k cy rq) (Sys.runEvents evs s)).p.lastImpulse.y = 0) := by
  constructor
  · intro delta cy rq k s
    exact ⟨Player.update_lastImpulse_y delta k cy rq s, Player.update_wait delta k cy rq s,
      (Player.update_capsule delta k cy rq s).1⟩
  · intro s tJ evs t2 delta cy rq k hw ht hevs h1 h2
    obtain ⟨hw2, ht2⟩ := Sys.runEvents_window tJ evs s hw ht hevs
    rw [Sys.stepEvent_upd_eq, Player.update_lastImpulse_y]
    have hnofire : ∀ e ∈ (Sys.runEvents evs s).timers, ¬ e ≤ t2 := fun e he hle =>
      absurd (lt_of_le_of_lt (le_trans (ht2 e he) hle) h2) (lt_irrefl _)
    have hfw : (Sys.fireDue t2 (Sys.runEvents evs s)).p.wait = true :=
      Sys.fireDue_wait_of_no_due t2 _ hw2 hnofire
    simp [Player.jumpGuard, hfw]

/-- A Player system state right after a jump at time 100: the wait flag is
set and the only pending timer (from a landing at least 250 ms before the
jump) expires at 350. -/
def sCooldown : Sys.SState := ⟨{ Player.construct vZero vZero with wait := true }, [350]⟩

/-- C4 witness: with the wait flag set at jump time 100 and the sole
pending timer at 350, a jump attempt at time 200 (inside the window)
contributes no vertical impulse; and the gating equations at a concrete
input. -/
theorem C4_witness :
    sCooldown.p.wait = true ∧
    (∀ e ∈ sCooldown.timers, (100 : ℚ) + 250 ≤ e) ∧
    (100 : ℚ) ≤ 200 ∧ (200 : ℚ) < 100 + 250 ∧
    (Sys.stepEvent 200 (.upd 1 kSpace 0 qId) (Sys.runEvents [] sCooldown)).p.lastImpulse.y = 0 ∧
    (Player.update 1 kSpace 0 qId sCooldown.p).lastImpulse.y =
      (if Player.jumpGuard kSpace sCooldown.p then 5 else 0) := by
  have htimers : ∀ e ∈ sCooldown.timers, (100 : ℚ) + 250 ≤ e := by
    intro e he
    rw [show sCooldown.timers = [350] from rfl, List.mem_singleton] at he
    rw [he]
    norm_num
  exact ⟨rfl, htimers, by norm_num, by norm_num,
    C4_jump_gating_and_cooldown.2 sCooldown 100 [] 200 1 0 qId kSpace rfl htimers
      (by simp) (by norm_num) (by norm_num),
    (C4_jump_gating_and_cooldown.1 1 0 qId kSpace sCooldown.p).1⟩

end

